import Mathlib

/-!
# Verification of the Derive trading client (`derive_client.py`, `server.py`)

A shallow embedding of the repository's trading client.  HTTP transport is
modelled by an environment mapping each endpoint to the parsed JSON body of
its response (`None` for a network failure or an unparseable body); every
outward effect of a client method (POST requests, auth-header refreshes,
action signing) is recorded in an event trace.  Python exceptions that can
escape a method are modelled with `Except`; exceptions caught inside the
source methods are resolved to the value the method returns.
-/

/-- A JSON value, as produced by `response.json()` in the transport layer. -/
inductive JVal where
  | null : JVal
  | bool : Bool → JVal
  | num : ℚ → JVal
  | str : String → JVal
  | arr : List JVal → JVal
  | obj : List (String × JVal) → JVal

/-- A JSON object body, i.e. a Python dict keyed by strings. -/
def Dict := List (String × JVal)

/-- Key lookup in a JSON object (Python `d[k]` / `k in d`). -/
def lookupD (d : List (String × JVal)) (k : String) : Option JVal :=
  match d with
  | [] => none
  | (k', v) :: rest => if k' = k then some v else lookupD rest k

/-- Python truthiness of a JSON value (`if x:`). -/
def JVal.truthy : JVal → Bool
  | JVal.null => false
  | JVal.bool b => b
  | JVal.num q => decide (q ≠ 0)
  | JVal.str s => !s.isEmpty
  | JVal.arr xs => !xs.isEmpty
  | JVal.obj fs => !fs.isEmpty

/-- Python truthiness of an optional value (`None` is falsy). -/
def pyTruthyOpt : Option JVal → Bool
  | none => false
  | some v => v.truthy

/-- `response.get("result") if response else None`: the `result` field of an
optional response body.  A falsy (empty) dict has no keys, so the truthiness
test collapses into the lookup. -/
def getResult (r : Option Dict) : Option JVal :=
  match r with
  | none => none
  | some d => lookupD d "result"

/-- `response and "result" in response`: a body was returned and it has a
`result` key (a nonempty dict is exactly one holding at least one key). -/
def respHasResultB (r : Option Dict) : Bool :=
  (getResult r).isSome

/-- Python `str()` rendering, used only inside error-message formatting.
Container rendering is abbreviated (no claim inspects those strings). -/
def pyStr : JVal → String
  | JVal.null => "None"
  | JVal.bool b => if b then "True" else "False"
  | JVal.num q => toString q.num ++ "/" ++ toString q.den
  | JVal.str s => s
  | JVal.arr _ => "[...]"
  | JVal.obj _ => "\x7b...\x7d"

/-- `d.get(k, default)` rendered through `str()`, as in the f-string
`f"{err.get('message', 'Unknown')}"`. -/
def pyStrOr (v : Option JVal) (dflt : String) : String :=
  match v with
  | none => dflt
  | some u => pyStr u

/-- `str()` of an optional response dict, for `f"Unexpected response: {response}"`. -/
def pyStrOptDict : Option Dict → String
  | none => "None"
  | some _ => "\x7b...\x7d"

/-- Python `int()` applied to a JSON value: truncation toward zero for
numbers, integer-literal parsing for strings, `True`/`False` as 1/0;
`none` models a raised `ValueError`/`TypeError`. -/
def pyInt : JVal → Option ℤ
  | JVal.num q => some (Int.tdiv q.num q.den)
  | JVal.str s => s.toInt?
  | JVal.bool b => some (if b then 1 else 0)
  | _ => none

/-- Python `float()` (and `Decimal(str(·))`) applied to a JSON value;
`none` models a raised conversion error.  Fractional string literals are
not needed by any claim and parse as errors here. -/
def pyFloat : JVal → Option ℚ
  | JVal.num q => some q
  | JVal.str s => (s.toInt?).map (fun i => (i : ℚ))
  | JVal.bool b => some (if b then 1 else 0)
  | _ => none

/-- The two deployment networks. -/
inductive Network where
  | mainnet : Network
  | testnet : Network
deriving DecidableEq

/-- REST/WS base URLs for one network (`ENDPOINTS` in `derive_client.py`). -/
structure Endpoints where
  rest : String
  ws : String

/-- `ENDPOINTS`: API endpoints per network. -/
def ENDPOINTS : Network → Endpoints
  | Network.mainnet =>
    { rest := "https://api.lyra.finance"
      ws := "wss://api.lyra.finance/ws" }
  | Network.testnet =>
    { rest := "https://api-demo.lyra.finance"
      ws := "wss://api-demo.lyra.finance/ws" }

/-- Per-network signing constants (`PROTOCOL_CONSTANTS` in `derive_client.py`). -/
structure ProtocolConsts where
  DOMAIN_SEPARATOR : String
  ACTION_TYPEHASH : String
  TRADE_MODULE_ADDRESS : String

/-- `PROTOCOL_CONSTANTS`: protocol constants per network. -/
def PROTOCOL_CONSTANTS : Network → ProtocolConsts
  | Network.mainnet =>
    { DOMAIN_SEPARATOR := "0xd96e5f90797da7ec8dc4e276260c7f3f87fedf68775fbe1ef116e996fc60441b"
      ACTION_TYPEHASH := "0x4d7a9f27c403ff9c0f19bce61d76d82f9aa29f8d6d4b0c5474607d9770d1af17"
      TRADE_MODULE_ADDRESS := "0xB8D20c2B7a1Ad2EE33Bc50eF10876eD3035b5e7b" }
  | Network.testnet =>
    { DOMAIN_SEPARATOR := "0x9bcf4dc06df5d8bf23af818d5716491b995020f377d3b7b64c29ed14e3dd1105"
      ACTION_TYPEHASH := "0x4d7a9f27c403ff9c0f19bce61d76d82f9aa29f8d6d4b0c5474607d9770d1af17"
      TRADE_MODULE_ADDRESS := "0x87F2863866D85E3192a35A73b388BD625D83f2be" }

/-- `utils.MAX_INT_32` of the `derive_action_signing` SDK dependency:
the largest signed 32-bit integer, used as the signature expiry. -/
def MAX_INT_32 : ℤ := 2147483647

/-- `OrderParams`: parameters for placing an order.  Decimal fields are
modelled as rationals. -/
structure OrderParams where
  instrument_name : String
  side : String
  amount : ℚ
  limit_price : ℚ
  order_type : String := "limit"
  time_in_force : String := "gtc"
  reduce_only : Bool := false
  post_only : Bool := false

/-- `TradeModuleData` as constructed by `place_order`: the module payload of
a signed action.  `asset_address` is `ticker.get("base_asset_address")`,
which may be absent. -/
structure TradeModuleData where
  asset_address : Option JVal
  sub_id : ℤ
  limit_price : ℚ
  amount : ℚ
  max_fee : ℚ
  recipient_id : ℤ
  is_bid : Bool

/-- `SignedAction` as constructed by `place_order` (the cryptographic
signature itself is outside the model; every field fed into it is here). -/
structure SignedAction where
  subaccount_id : ℤ
  owner : String
  signer : String
  signature_expiry_sec : ℤ
  nonce : ℤ
  module_address : String
  module_data : TradeModuleData
  DOMAIN_SEPARATOR : String
  ACTION_TYPEHASH : String

/-- `Position`: a read-only projection of one exchange position. -/
structure Position where
  instrument_name : JVal
  side : String
  amount : ℚ
  average_price : ℚ
  unrealized_pnl : ℚ
  realized_pnl : ℚ

/-- A Python exception escaping a client method. -/
inductive PyExn where
  | importError : PyExn
  | runtimeError : String → PyExn
  | attributeError : PyExn
  | typeError : PyExn
  | valueError : PyExn

/-- The value returned by `place_order`: either `response["result"]`
(the order confirmation) or an `{"error": msg}` dict. -/
inductive POResult where
  | order : JVal → POResult
  | error : String → POResult

/-- The world outside the client: the response body the exchange returns
for each endpoint (`none` = network failure or unparseable body), whether
the `derive_action_signing` package is importable, the nonce the SDK
generates, and the current wall-clock timestamp embedded in auth headers. -/
structure Env where
  resp : String → Option Dict
  signing_available : Bool
  nonce : ℤ
  now : ℤ

/-- An outward effect of a client method: an HTTP POST (recorded as the
REST base URL and the endpoint appended to it), an auth-header refresh
embedding a timestamp, or the signing of an action. -/
inductive Event where
  | post : String → String → Event
  | refreshHeaders : ℤ → Event
  | sign : SignedAction → Event

/-- `DeriveClient` state: construction-time fields plus the mutable auth
state (the `authenticated` flag and the timestamp inside the current
session auth headers, `none` before any header was attached). -/
structure DeriveClient where
  session_key : String
  wallet_address : String
  subaccount_id : ℤ
  network : Network
  signer_address : String
  rest_url : String
  ws_url : String
  header_timestamp : Option ℤ
  authenticated : Bool

/-- `DeriveClient.__init__`.  The signer address is derived from the
session key by the external web3 library, so it enters the model as a
parameter. -/
def DeriveClient.init (session_key wallet_address : String) (subaccount_id : ℤ)
    (signer_address : String) (network : Network) : DeriveClient :=
  { session_key := session_key
    wallet_address := wallet_address
    subaccount_id := subaccount_id
    network := network
    signer_address := signer_address
    rest_url := (ENDPOINTS network).rest
    ws_url := (ENDPOINTS network).ws
    header_timestamp := none
    authenticated := false }

/-- `_post`: POST to `self.rest_url + endpoint`; the parsed body (or `None`)
comes from the environment.  Request payloads are not inspected by any
claim and are elided from the trace. -/
def DeriveClient.post (c : DeriveClient) (env : Env) (endpoint : String) :
    Option Dict × List Event :=
  (env.resp endpoint, [Event.post c.rest_url endpoint])

/-- `login`: sign fresh auth headers, attach them to the session, and probe
`/private/get_subaccount`; the `authenticated` flag is set only on a body
with a `result` field.  Every exception inside (including the `ImportError`
when the signing SDK is absent) is caught and yields `False` — when the SDK
is absent no header is attached and no request is sent. -/
def DeriveClient.login (c : DeriveClient) (env : Env) :
    Bool × DeriveClient × List Event :=
  if env.signing_available then
    let c1 : DeriveClient := { c with header_timestamp := some env.now }
    let tr : List Event :=
      [Event.refreshHeaders env.now, Event.post c1.rest_url "/private/get_subaccount"]
    if respHasResultB (env.resp "/private/get_subaccount") then
      (true, { c1 with authenticated := true }, tr)
    else
      (false, c1, tr)
  else
    (false, c, [])

/-- `_refresh_auth_headers`: re-sign the EIP-191 auth headers with the
current timestamp.  The SDK import here is not guarded, so its absence
raises an uncaught `ImportError`. -/
def DeriveClient.refresh_auth_headers (c : DeriveClient) (env : Env) :
    Except PyExn Unit × DeriveClient × List Event :=
  if env.signing_available then
    (Except.ok (), { c with header_timestamp := some env.now },
      [Event.refreshHeaders env.now])
  else
    (Except.error PyExn.importError, c, [])

/-- `_ensure_authenticated`: log in first when the flag is unset (raising
`RuntimeError` when that login fails), then unconditionally refresh the
auth headers. -/
def DeriveClient.ensure_authenticated (c : DeriveClient) (env : Env) :
    Except PyExn Unit × DeriveClient × List Event :=
  if c.authenticated then
    c.refresh_auth_headers env
  else
    match c.login env with
    | (true, c1, tr1) =>
      match c1.refresh_auth_headers env with
      | (r, c2, tr2) => (r, c2, tr1 ++ tr2)
    | (false, c1, tr1) =>
      (Except.error (PyExn.runtimeError "Authentication required but login failed"),
        c1, tr1)

/-- `get_instruments`: public query; `response.get("result", [])` when the
body is truthy, else the empty list. -/
def DeriveClient.get_instruments (c : DeriveClient) (env : Env)
    (currency kind : String) : JVal × DeriveClient × List Event :=
  match c.post env "/public/get_instruments" with
  | (r, tr) =>
    (match r with
     | some d => if d.isEmpty then JVal.arr [] else (lookupD d "result").getD (JVal.arr [])
     | none => JVal.arr [], c, tr)

/-- `get_ticker`: public query; `response.get("result") if response else None`
(an empty body has no keys, so the truthiness guard collapses into the
lookup). -/
def DeriveClient.get_ticker (c : DeriveClient) (env : Env)
    (instrument_name : String) : Option JVal × DeriveClient × List Event :=
  match c.post env "/public/get_ticker" with
  | (r, tr) => (getResult r, c, tr)

/-- `get_orderbook`: public query with the same result extraction as
`get_ticker`. -/
def DeriveClient.get_orderbook (c : DeriveClient) (env : Env)
    (instrument_name : String) (depth : ℤ) : Option JVal × DeriveClient × List Event :=
  match c.post env "/public/get_order_book" with
  | (r, tr) => (getResult r, c, tr)

/-- `get_account`: privileged query returning the raw `result` field. -/
def DeriveClient.get_account (c : DeriveClient) (env : Env) :
    Except PyExn (Option JVal) × DeriveClient × List Event :=
  match c.ensure_authenticated env with
  | (Except.error e, c1, tr1) => (Except.error e, c1, tr1)
  | (Except.ok _, c1, tr1) =>
    match c1.post env "/private/get_account" with
    | (r, tr2) => (Except.ok (getResult r), c1, tr1 ++ tr2)

/-- One iteration of the `get_positions` loop: build a `Position` from one
raw entry; `none` models a raised conversion/attribute error. -/
def parsePosition (p : JVal) : Option Position :=
  match p with
  | JVal.obj fs =>
    match pyFloat ((lookupD fs "amount").getD (JVal.num 0)) with
    | none => none
    | some amt =>
      match pyFloat ((lookupD fs "average_price").getD (JVal.num 0)),
            pyFloat ((lookupD fs "unrealized_pnl").getD (JVal.num 0)),
            pyFloat ((lookupD fs "realized_pnl").getD (JVal.num 0)) with
      | some ap, some up, some rp =>
        some { instrument_name := (lookupD fs "instrument_name").getD (JVal.str "")
               side := if 0 < amt then "long" else "short"
               amount := |amt|
               average_price := ap
               unrealized_pnl := up
               realized_pnl := rp }
      | _, _, _ => none
  | _ => none

/-- `get_positions`: privileged query; each raw entry of
`response["result"].get("positions", [])` is projected to a `Position`.
Conversion failures in the loop propagate as exceptions, as in the source
(nothing catches them there). -/
def DeriveClient.get_positions (c : DeriveClient) (env : Env) :
    Except PyExn (List Position) × DeriveClient × List Event :=
  match c.ensure_authenticated env with
  | (Except.error e, c1, tr1) => (Except.error e, c1, tr1)
  | (Except.ok _, c1, tr1) =>
    match c1.post env "/private/get_positions" with
    | (r, tr2) =>
      (match getResult r with
       | some (JVal.obj fs) =>
         match (lookupD fs "positions").getD (JVal.arr []) with
         | JVal.arr ps =>
           match ps.mapM parsePosition with
           | some l => Except.ok l
           | none => Except.error PyExn.valueError
         | _ => Except.error PyExn.typeError
       | some _ => Except.error PyExn.attributeError
       | none => Except.ok [], c1, tr1 ++ tr2)

/-- `get_open_orders`: privileged query returning
`response["result"].get("orders", [])`, or the empty list when no `result`
field is present. -/
def DeriveClient.get_open_orders (c : DeriveClient) (env : Env) :
    Except PyExn JVal × DeriveClient × List Event :=
  match c.ensure_authenticated env with
  | (Except.error e, c1, tr1) => (Except.error e, c1, tr1)
  | (Except.ok _, c1, tr1) =>
    match c1.post env "/private/get_open_orders" with
    | (r, tr2) =>
      (match getResult r with
       | some (JVal.obj fs) => Except.ok ((lookupD fs "orders").getD (JVal.arr []))
       | some _ => Except.error PyExn.attributeError
       | none => Except.ok (JVal.arr []), c1, tr1 ++ tr2)

/-- `get_collateral`: privileged query returning
`response["result"].get("collaterals", [])`, or `None` when no `result`
field is present. -/
def DeriveClient.get_collateral (c : DeriveClient) (env : Env) :
    Except PyExn (Option JVal) × DeriveClient × List Event :=
  match c.ensure_authenticated env with
  | (Except.error e, c1, tr1) => (Except.error e, c1, tr1)
  | (Except.ok _, c1, tr1) =>
    match c1.post env "/private/get_collaterals" with
    | (r, tr2) =>
      (match getResult r with
       | some (JVal.obj fs) => Except.ok (some ((lookupD fs "collaterals").getD (JVal.arr [])))
       | some _ => Except.error PyExn.attributeError
       | none => Except.ok none, c1, tr1 ++ tr2)

/-- The `TradeModuleData(...)` construction inside `place_order`, applied to
the fields of the fetched ticker.  `Except.error` models the caught
conversion error when `int(ticker.get("base_asset_sub_id", 0))` raises. -/
def buildTradeModuleData (c : DeriveClient) (tickerD : Dict) (params : OrderParams) :
    Except String TradeModuleData :=
  match (match lookupD tickerD "base_asset_sub_id" with
         | none => some 0
         | some v => pyInt v) with
  | none => Except.error "invalid literal for int() with base 10"
  | some subId =>
    Except.ok
      { asset_address := lookupD tickerD "base_asset_address"
        sub_id := subId
        limit_price := params.limit_price
        amount := if params.side = "buy" then params.amount else -params.amount
        max_fee := 1000
        recipient_id := c.subaccount_id
        is_bid := decide (params.side = "buy") }

/-- The `SignedAction(...)` construction inside `place_order`. -/
def buildSignedAction (c : DeriveClient) (env : Env) (md : TradeModuleData) :
    SignedAction :=
  { subaccount_id := c.subaccount_id
    owner := c.wallet_address
    signer := c.signer_address
    signature_expiry_sec := MAX_INT_32
    nonce := env.nonce
    module_address := (PROTOCOL_CONSTANTS c.network).TRADE_MODULE_ADDRESS
    module_data := md
    DOMAIN_SEPARATOR := (PROTOCOL_CONSTANTS c.network).DOMAIN_SEPARATOR
    ACTION_TYPEHASH := (PROTOCOL_CONSTANTS c.network).ACTION_TYPEHASH }

/-- The response classification at the end of `place_order`: `result` field
present wins, else a structured `error` field is rendered to a message,
else the response is reported as unexpected.  A non-dict `error` value makes
`err.get` raise, which the blanket handler converts to an error result. -/
def classifyOrderResponse (r : Option Dict) : POResult :=
  match r with
  | some d =>
    (match lookupD d "result" with
     | some v => POResult.order v
     | none =>
       match lookupD d "error" with
       | some (JVal.obj errD) =>
         POResult.error
           (pyStrOr (lookupD errD "message") "Unknown" ++ " â€” " ++
             pyStrOr (lookupD errD "data") "")
       | some _ => POResult.error "error object has no attribute get"
       | none => POResult.error ("Unexpected response: " ++ pyStrOptDict (some d)))
  | none => POResult.error ("Unexpected response: " ++ pyStrOptDict none)

/-- `place_order`: ensure authentication (outside the handler — its
exceptions escape), then inside the blanket handler: import the signing
SDK, fetch the ticker, build and sign the action, submit, and classify the
response.  A falsy ticker short-circuits to an error result before any
signing or submission; a truthy non-dict ticker makes the attribute access
raise into the blanket handler. -/
def DeriveClient.place_order (c : DeriveClient) (env : Env) (params : OrderParams) :
    Except PyExn POResult × DeriveClient × List Event :=
  match c.ensure_authenticated env with
  | (Except.error e, c1, tr1) => (Except.error e, c1, tr1)
  | (Except.ok _, c1, tr1) =>
    if env.signing_available then
      match c1.get_ticker env params.instrument_name with
      | (ticker, _, tr2) =>
        if pyTruthyOpt ticker then
          match ticker with
          | some (JVal.obj tickerD) =>
            (match buildTradeModuleData c1 tickerD params with
             | Except.error msg => (Except.ok (POResult.error msg), c1, tr1 ++ tr2)
             | Except.ok md =>
               let action := buildSignedAction c1 env md
               (Except.ok (classifyOrderResponse (env.resp "/private/order")), c1,
                 tr1 ++ tr2 ++ [Event.sign action, Event.post c1.rest_url "/private/order"]))
          | _ =>
            (Except.ok (POResult.error "ticker object has no attribute get"), c1, tr1 ++ tr2)
        else
          (Except.ok (POResult.error ("Could not get ticker for " ++ params.instrument_name)),
            c1, tr1 ++ tr2)
    else
      (Except.ok (POResult.error
        "derive_action_signing not installed. Run: pip install derive_action_signing"),
        c1, tr1)

/-- `cancel_order`: privileged; `True` exactly on a body with a `result`
field. -/
def DeriveClient.cancel_order (c : DeriveClient) (env : Env) (order_id : String) :
    Except PyExn Bool × DeriveClient × List Event :=
  match c.ensure_authenticated env with
  | (Except.error e, c1, tr1) => (Except.error e, c1, tr1)
  | (Except.ok _, c1, tr1) =>
    match c1.post env "/private/cancel" with
    | (r, tr2) => (Except.ok (respHasResultB r), c1, tr1 ++ tr2)

/-- `cancel_all_orders`: privileged; the string acknowledgement `"ok"` (and
in fact any non-dict result) yields 1, a dict result yields its
`cancelled` value defaulting to 1, anything without a `result` field
yields 0.  The returned Python value is modelled raw as a `JVal`. -/
def DeriveClient.cancel_all_orders (c : DeriveClient) (env : Env)
    (instrument_name : Option String) : Except PyExn JVal × DeriveClient × List Event :=
  match c.ensure_authenticated env with
  | (Except.error e, c1, tr1) => (Except.error e, c1, tr1)
  | (Except.ok _, c1, tr1) =>
    match c1.post env "/private/cancel_all" with
    | (r, tr2) =>
      (match getResult r with
       | some result =>
         Except.ok
           (match result with
            | JVal.str s => if s = "ok" then JVal.num 1 else JVal.num 1
            | JVal.obj fs => (lookupD fs "cancelled").getD (JVal.num 1)
            | _ => JVal.num 1)
       | none => Except.ok (JVal.num 0), c1, tr1 ++ tr2)

/-- The string/JSON reply of the `place_order` MCP tool in `server.py`. -/
inductive ServerReply where
  | invalid : String → ServerReply
  | failed : String → ServerReply
  | success : JVal → ServerReply

/-- The `place_order` tool of `server.py`: reject an unknown side with a
message before touching the client, otherwise build `OrderParams` and call
`DeriveClient.place_order`, mapping its two result shapes to
failed/success replies.  No validation of `amount` is performed. -/
def server_place_order (c : DeriveClient) (env : Env)
    (instrument_name side : String) (amount limit_price : ℚ)
    (order_type time_in_force : String) (reduce_only post_only : Bool) :
    Except PyExn ServerReply × DeriveClient × List Event :=
  if side = "buy" ∨ side = "sell" then
    match c.place_order env
      { instrument_name := instrument_name
        side := side
        amount := amount
        limit_price := limit_price
        order_type := order_type
        time_in_force := time_in_force
        reduce_only := reduce_only
        post_only := post_only } with
    | (Except.error e, c1, tr) => (Except.error e, c1, tr)
    | (Except.ok (POResult.error m), c1, tr) => (Except.ok (ServerReply.failed m), c1, tr)
    | (Except.ok (POResult.order v), c1, tr) => (Except.ok (ServerReply.success v), c1, tr)
  else
    (Except.ok (ServerReply.invalid
      ("Invalid side '" ++ side ++ "'. Must be 'buy' or 'sell'.")), c, [])

/-- One public operation of the client, for quantifying over everything a
caller can do to a constructed client. -/
inductive ClientOp where
  | login : ClientOp
  | getInstruments : String → String → ClientOp
  | getTicker : String → ClientOp
  | getOrderbook : String → ℤ → ClientOp
  | getAccount : ClientOp
  | getPositions : ClientOp
  | getOpenOrders : ClientOp
  | getCollateral : ClientOp
  | placeOrder : OrderParams → ClientOp
  | cancelOrder : String → ClientOp
  | cancelAllOrders : Option String → ClientOp

/-- The state-and-trace semantics of one client operation (its returned
value is a pure function of the environment and does not act on the
state). -/
def ClientOp.run (op : ClientOp) (c : DeriveClient) (env : Env) :
    DeriveClient × List Event :=
  match op with
  | ClientOp.login => match c.login env with | (_, c1, tr) => (c1, tr)
  | ClientOp.getInstruments cur kind =>
    match c.get_instruments env cur kind with | (_, c1, tr) => (c1, tr)
  | ClientOp.getTicker name => match c.get_ticker env name with | (_, c1, tr) => (c1, tr)
  | ClientOp.getOrderbook name depth =>
    match c.get_orderbook env name depth with | (_, c1, tr) => (c1, tr)
  | ClientOp.getAccount => match c.get_account env with | (_, c1, tr) => (c1, tr)
  | ClientOp.getPositions => match c.get_positions env with | (_, c1, tr) => (c1, tr)
  | ClientOp.getOpenOrders => match c.get_open_orders env with | (_, c1, tr) => (c1, tr)
  | ClientOp.getCollateral => match c.get_collateral env with | (_, c1, tr) => (c1, tr)
  | ClientOp.placeOrder p => match c.place_order env p with | (_, c1, tr) => (c1, tr)
  | ClientOp.cancelOrder oid => match c.cancel_order env oid with | (_, c1, tr) => (c1, tr)
  | ClientOp.cancelAllOrders i =>
    match c.cancel_all_orders env i with | (_, c1, tr) => (c1, tr)

/-- Run a sequence of operations (each in its own environment: the outside
world may differ per call), collecting the final state and the full trace. -/
def runOps : List (ClientOp × Env) → DeriveClient → DeriveClient × List Event
  | [], c => (c, [])
  | (op, env) :: rest, c =>
    match op.run c env with
    | (c1, tr1) =>
      match runOps rest c1 with
      | (c2, tr2) => (c2, tr1 ++ tr2)

/-- Whether one event stays on network `n`: POSTs use its REST base URL and
signed actions its domain separator and trade-module address. -/
def Event.onNetwork (n : Network) : Event → Bool
  | Event.post base _ => decide (base = (ENDPOINTS n).rest)
  | Event.refreshHeaders _ => true
  | Event.sign a =>
    decide (a.DOMAIN_SEPARATOR = (PROTOCOL_CONSTANTS n).DOMAIN_SEPARATOR) &&
      decide (a.module_address = (PROTOCOL_CONSTANTS n).TRADE_MODULE_ADDRESS)

/-- Whether a whole trace stays on network `n`. -/
def traceOnNetwork (n : Network) (tr : List Event) : Bool :=
  tr.all (Event.onNetwork n)

/-- Whether an event is an HTTP POST (a network call). -/
def Event.isPost : Event → Bool
  | Event.post _ _ => true
  | _ => false

/-- Whether an event is the signing of an action. -/
def Event.isSign : Event → Bool
  | Event.sign _ => true
  | _ => false

/-- Whether an event is an HTTP POST to the given endpoint. -/
def Event.isPostTo (ep : String) : Event → Bool
  | Event.post _ e => decide (e = ep)
  | _ => false

/-- Sample ticker response body used by concrete witnesses. -/
def tickerBody : Dict :=
  [("result", JVal.obj
    [("base_asset_address", JVal.str "0xA11ce0000000000000000000000000000000Asse"),
     ("base_asset_sub_id", JVal.num 12)])]

/-- Sample acknowledgement body used by concrete witnesses. -/
def okBody : Dict := [("result", JVal.str "ok")]

/-- An environment in which everything succeeds. -/
def envOk : Env :=
  { resp := fun ep => if ep = "/public/get_ticker" then some tickerBody else some okBody
    signing_available := true
    nonce := 7
    now := 1000 }

/-- An environment in which the exchange is unreachable (every POST fails). -/
def envDown : Env :=
  { resp := fun _ => none
    signing_available := true
    nonce := 7
    now := 1000 }

/-- An environment in which the ticker lookup comes back without a `result`
field while everything else succeeds. -/
def envNoTicker : Env :=
  { resp := fun ep => if ep = "/public/get_ticker" then some [] else some okBody
    signing_available := true
    nonce := 7
    now := 1000 }

/-- A freshly constructed testnet client. -/
def cTest : DeriveClient :=
  DeriveClient.init
    "0x1111111111111111111111111111111111111111111111111111111111111111"
    "0x2222222222222222222222222222222222222222" 5
    "0x3333333333333333333333333333333333333333" Network.testnet

/-- The same client after a successful login (`authenticated` set). -/
def cAuth : DeriveClient := { cTest with authenticated := true }

/-- Invariant relating a client state before and after one operation: the
construction-time network fields are untouched, the `authenticated` flag is
never demoted, and (when the REST URL is the one selected at construction)
every emitted event stays on the client's network. -/
def StepOK (c c' : DeriveClient) (tr : List Event) : Prop :=
  c'.network = c.network ∧ c'.rest_url = c.rest_url ∧
  (c.authenticated = true → c'.authenticated = true) ∧
  (c.rest_url = (ENDPOINTS c.network).rest → traceOnNetwork c.network tr = true)

theorem stepOK_refl (c : DeriveClient) : StepOK c c [] :=
  ⟨rfl, rfl, fun h => h, fun _ => rfl⟩

theorem traceOnNetwork_append (n : Network) (t1 t2 : List Event) :
    traceOnNetwork n (t1 ++ t2) = (traceOnNetwork n t1 && traceOnNetwork n t2) := by
  simp [traceOnNetwork]

theorem StepOK.trans {c c1 c2 : DeriveClient} {tr1 tr2 : List Event}
    (h1 : StepOK c c1 tr1) (h2 : StepOK c1 c2 tr2) : StepOK c c2 (tr1 ++ tr2) := by
  obtain ⟨n1, r1, a1, t1⟩ := h1
  obtain ⟨n2, r2, a2, t2⟩ := h2
  refine ⟨n2.trans n1, r2.trans r1, fun h => a2 (a1 h), fun h => ?_⟩
  rw [traceOnNetwork_append, t1 h, Bool.true_and]
  have h' := t2 (by rw [r1, n1]; exact h)
  rwa [n1] at h'

theorem login_stepOK (c : DeriveClient) (env : Env) :
    StepOK c (c.login env).2.1 (c.login env).2.2 := by
  unfold DeriveClient.login
  split
  · split
    · exact ⟨rfl, rfl, fun _ => rfl,
        fun h => by simp [traceOnNetwork, Event.onNetwork, h]⟩
    · exact ⟨rfl, rfl, fun h => h,
        fun h => by simp [traceOnNetwork, Event.onNetwork, h]⟩
  · exact stepOK_refl c

theorem refresh_stepOK (c : DeriveClient) (env : Env) :
    StepOK c (c.refresh_auth_headers env).2.1 (c.refresh_auth_headers env).2.2 := by
  unfold DeriveClient.refresh_auth_headers
  split
  · exact ⟨rfl, rfl, fun h => h, fun _ => by simp [traceOnNetwork, Event.onNetwork]⟩
  · exact stepOK_refl c

theorem ensure_stepOK (c : DeriveClient) (env : Env) :
    StepOK c (c.ensure_authenticated env).2.1 (c.ensure_authenticated env).2.2 := by
  unfold DeriveClient.ensure_authenticated
  split
  · exact refresh_stepOK c env
  · have hl := login_stepOK c env
    rcases hlogin : c.login env with ⟨b, c1, tr1⟩
    rw [hlogin] at hl
    dsimp at hl
    cases b
    · simp only [hlogin]
      exact hl
    · simp only [hlogin]
      have h2 := refresh_stepOK c1 env
      rcases hr : c1.refresh_auth_headers env with ⟨r, c2, tr2⟩
      rw [hr] at h2
      dsimp at h2
      exact hl.trans h2

theorem get_instruments_stepOK (c : DeriveClient) (env : Env) (cur kind : String) :
    StepOK c (c.get_instruments env cur kind).2.1 (c.get_instruments env cur kind).2.2 := by
  unfold DeriveClient.get_instruments DeriveClient.post
  exact ⟨rfl, rfl, fun h => h, fun h => by simp [traceOnNetwork, Event.onNetwork, h]⟩

theorem get_ticker_stepOK (c : DeriveClient) (env : Env) (name : String) :
    StepOK c (c.get_ticker env name).2.1 (c.get_ticker env name).2.2 := by
  unfold DeriveClient.get_ticker DeriveClient.post
  exact ⟨rfl, rfl, fun h => h, fun h => by simp [traceOnNetwork, Event.onNetwork, h]⟩

theorem get_orderbook_stepOK (c : DeriveClient) (env : Env) (name : String) (depth : ℤ) :
    StepOK c (c.get_orderbook env name depth).2.1 (c.get_orderbook env name depth).2.2 := by
  unfold DeriveClient.get_orderbook DeriveClient.post
  exact ⟨rfl, rfl, fun h => h, fun h => by simp [traceOnNetwork, Event.onNetwork, h]⟩

theorem post_stepOK (c : DeriveClient) (env : Env) (ep : String) :
    StepOK c c [Event.post c.rest_url ep] :=
  ⟨rfl, rfl, fun h => h, fun h => by simp [traceOnNetwork, Event.onNetwork, h]⟩

theorem get_account_stepOK (c : DeriveClient) (env : Env) :
    StepOK c (c.get_account env).2.1 (c.get_account env).2.2 := by
  unfold DeriveClient.get_account
  have h1 := ensure_stepOK c env
  rcases he : c.ensure_authenticated env with ⟨r, c1, tr1⟩
  rw [he] at h1
  dsimp at h1
  cases r with
  | error e => simpa only [he] using h1
  | ok u =>
    simp only [he]
    unfold DeriveClient.post
    exact h1.trans (post_stepOK c1 env "/private/get_account")

theorem get_positions_stepOK (c : DeriveClient) (env : Env) :
    StepOK c (c.get_positions env).2.1 (c.get_positions env).2.2 := by
  unfold DeriveClient.get_positions
  have h1 := ensure_stepOK c env
  rcases he : c.ensure_authenticated env with ⟨r, c1, tr1⟩
  rw [he] at h1
  dsimp at h1
  cases r with
  | error e => simpa only [he] using h1
  | ok u =>
    simp only [he]
    unfold DeriveClient.post
    exact h1.trans (post_stepOK c1 env "/private/get_positions")

theorem get_open_orders_stepOK (c : DeriveClient) (env : Env) :
    StepOK c (c.get_open_orders env).2.1 (c.get_open_orders env).2.2 := by
  unfold DeriveClient.get_open_orders
  have h1 := ensure_stepOK c env
  rcases he : c.ensure_authenticated env with ⟨r, c1, tr1⟩
  rw [he] at h1
  dsimp at h1
  cases r with
  | error e => simpa only [he] using h1
  | ok u =>
    simp only [he]
    unfold DeriveClient.post
    exact h1.trans (post_stepOK c1 env "/private/get_open_orders")

theorem get_collateral_stepOK (c : DeriveClient) (env : Env) :
    StepOK c (c.get_collateral env).2.1 (c.get_collateral env).2.2 := by
  unfold DeriveClient.get_collateral
  have h1 := ensure_stepOK c env
  rcases he : c.ensure_authenticated env with ⟨r, c1, tr1⟩
  rw [he] at h1
  dsimp at h1
  cases r with
  | error e => simpa only [he] using h1
  | ok u =>
    simp only [he]
    unfold DeriveClient.post
    exact h1.trans (post_stepOK c1 env "/private/get_collaterals")

theorem sign_stepOK (c : DeriveClient) (env : Env) (md : TradeModuleData) (ep : String) :
    StepOK c c [Event.sign (buildSignedAction c env md), Event.post c.rest_url ep] :=
  ⟨rfl, rfl, fun h => h,
    fun h => by simp [traceOnNetwork, Event.onNetwork, buildSignedAction, h]⟩

theorem place_order_stepOK (c : DeriveClient) (env : Env) (p : OrderParams) :
    StepOK c (c.place_order env p).2.1 (c.place_order env p).2.2 := by
  unfold DeriveClient.place_order
  have h1 := ensure_stepOK c env
  rcases he : c.ensure_authenticated env with ⟨r, c1, tr1⟩
  rw [he] at h1
  dsimp at h1
  cases r with
  | error e => simpa only [he] using h1
  | ok u =>
    simp only [he]
    split
    · unfold DeriveClient.get_ticker DeriveClient.post
      dsimp
      split
      · split
        · split
          · exact h1.trans ((post_stepOK c1 env "/public/get_ticker").trans
              (stepOK_refl c1))
          · exact (h1.trans (post_stepOK c1 env "/public/get_ticker")).trans
              (sign_stepOK c1 env _ "/private/order")
        · exact h1.trans ((post_stepOK c1 env "/public/get_ticker").trans
            (stepOK_refl c1))
      · exact h1.trans ((post_stepOK c1 env "/public/get_ticker").trans
          (stepOK_refl c1))
    · exact h1

theorem cancel_order_stepOK (c : DeriveClient) (env : Env) (oid : String) :
    StepOK c (c.cancel_order env oid).2.1 (c.cancel_order env oid).2.2 := by
  unfold DeriveClient.cancel_order
  have h1 := ensure_stepOK c env
  rcases he : c.ensure_authenticated env with ⟨r, c1, tr1⟩
  rw [he] at h1
  dsimp at h1
  cases r with
  | error e => simpa only [he] using h1
  | ok u =>
    simp only [he]
    unfold DeriveClient.post
    exact h1.trans (post_stepOK c1 env "/private/cancel")

theorem cancel_all_orders_stepOK (c : DeriveClient) (env : Env) (i : Option String) :
    StepOK c (c.cancel_all_orders env i).2.1 (c.cancel_all_orders env i).2.2 := by
  unfold DeriveClient.cancel_all_orders
  have h1 := ensure_stepOK c env
  rcases he : c.ensure_authenticated env with ⟨r, c1, tr1⟩
  rw [he] at h1
  dsimp at h1
  cases r with
  | error e => simpa only [he] using h1
  | ok u =>
    simp only [he]
    unfold DeriveClient.post
    exact h1.trans (post_stepOK c1 env "/private/cancel_all")

theorem run_stepOK (op : ClientOp) (c : DeriveClient) (env : Env) :
    StepOK c (op.run c env).1 (op.run c env).2 := by
  cases op with
  | login => exact login_stepOK c env
  | getInstruments cur kind => exact get_instruments_stepOK c env cur kind
  | getTicker name => exact get_ticker_stepOK c env name
  | getOrderbook name depth => exact get_orderbook_stepOK c env name depth
  | getAccount => exact get_account_stepOK c env
  | getPositions => exact get_positions_stepOK c env
  | getOpenOrders => exact get_open_orders_stepOK c env
  | getCollateral => exact get_collateral_stepOK c env
  | placeOrder p => exact place_order_stepOK c env p
  | cancelOrder oid => exact cancel_order_stepOK c env oid
  | cancelAllOrders i => exact cancel_all_orders_stepOK c env i

theorem runOps_stepOK (ops : List (ClientOp × Env)) (c : DeriveClient) :
    StepOK c (runOps ops c).1 (runOps ops c).2 := by
  induction ops generalizing c with
  | nil => exact stepOK_refl c
  | cons oe rest ih =>
    rcases oe with ⟨op, env⟩
    exact (run_stepOK op c env).trans (ih (op.run c env).1)

theorem login_eq_fail_sdk (c : DeriveClient) (env : Env)
    (hs : env.signing_available = false) : c.login env = (false, c, []) := by
  unfold DeriveClient.login
  rw [if_neg]
  simp [hs]

theorem login_eq_ok (c : DeriveClient) (env : Env)
    (hs : env.signing_available = true)
    (hr : respHasResultB (env.resp "/private/get_subaccount") = true) :
    c.login env =
      (true, { c with header_timestamp := some env.now, authenticated := true },
        [Event.refreshHeaders env.now, Event.post c.rest_url "/private/get_subaccount"]) := by
  unfold DeriveClient.login
  simp [hs, hr]

theorem login_eq_fail_resp (c : DeriveClient) (env : Env)
    (hs : env.signing_available = true)
    (hr : respHasResultB (env.resp "/private/get_subaccount") = false) :
    c.login env =
      (false, { c with header_timestamp := some env.now },
        [Event.refreshHeaders env.now, Event.post c.rest_url "/private/get_subaccount"]) := by
  unfold DeriveClient.login
  simp [hs, hr]

theorem login_ok_signing (c : DeriveClient) (env : Env)
    (h : (c.login env).1 = true) : env.signing_available = true := by
  by_contra hns
  rw [login_eq_fail_sdk c env (by simpa using hns)] at h
  simp at h

theorem login_ok_resp (c : DeriveClient) (env : Env)
    (h : (c.login env).1 = true) :
    respHasResultB (env.resp "/private/get_subaccount") = true := by
  by_contra hnr
  rw [login_eq_fail_resp c env (login_ok_signing c env h) (by simpa using hnr)] at h
  simp at h

theorem ensure_eq_auth_ok (c : DeriveClient) (env : Env)
    (ha : c.authenticated = true) (hs : env.signing_available = true) :
    c.ensure_authenticated env =
      (Except.ok (), { c with header_timestamp := some env.now },
        [Event.refreshHeaders env.now]) := by
  unfold DeriveClient.ensure_authenticated DeriveClient.refresh_auth_headers
  simp [ha, hs]

theorem ensure_eq_auth_noSDK (c : DeriveClient) (env : Env)
    (ha : c.authenticated = true) (hs : env.signing_available = false) :
    c.ensure_authenticated env = (Except.error PyExn.importError, c, []) := by
  unfold DeriveClient.ensure_authenticated DeriveClient.refresh_auth_headers
  simp [ha, hs]

theorem ensure_eq_login_ok (c : DeriveClient) (env : Env)
    (ha : c.authenticated = false) (hl : (c.login env).1 = true) :
    c.ensure_authenticated env =
      (Except.ok (), { c with header_timestamp := some env.now, authenticated := true },
        [Event.refreshHeaders env.now, Event.post c.rest_url "/private/get_subaccount",
         Event.refreshHeaders env.now]) := by
  have hs := login_ok_signing c env hl
  have hr := login_ok_resp c env hl
  unfold DeriveClient.ensure_authenticated DeriveClient.refresh_auth_headers
  rw [login_eq_ok c env hs hr]
  simp [ha, hs]

theorem ensure_eq_login_fail (c : DeriveClient) (env : Env)
    (ha : c.authenticated = false) (hl : (c.login env).1 = false) :
    c.ensure_authenticated env =
      (Except.error (PyExn.runtimeError "Authentication required but login failed"),
        (c.login env).2.1, (c.login env).2.2) := by
  unfold DeriveClient.ensure_authenticated
  rw [if_neg (by simp [ha])]
  rcases hL : c.login env with ⟨b, c1, tr1⟩
  rw [hL] at hl
  dsimp at hl
  subst hl
  rfl

theorem classify_order_inv (r : Option Dict) (v : JVal)
    (h : classifyOrderResponse r = POResult.order v) : getResult r = some v := by
  rcases r with _ | d
  · exact POResult.noConfusion h
  · unfold classifyOrderResponse at h
    dsimp only at h
    have hg : getResult (some d) = lookupD d "result" := rfl
    rcases hres : lookupD d "result" with _ | w
    · rw [hres] at h
      dsimp only at h
      rcases herr : lookupD d "error" with _ | ev
      · rw [herr] at h
        exact POResult.noConfusion h
      · rw [herr] at h
        cases ev <;> exact POResult.noConfusion h
    · rw [hres] at h
      dsimp only at h
      injection h with h'
      rw [hg, hres, h']

theorem ensure_trace_clean (c : DeriveClient) (env : Env) :
    (c.ensure_authenticated env).2.2.all
      (fun e => !e.isSign && !(Event.isPostTo "/private/order" e)) = true := by
  by_cases ha : c.authenticated = true
  · by_cases hs : env.signing_available = true
    · rw [ensure_eq_auth_ok c env ha hs]
      rfl
    · rw [ensure_eq_auth_noSDK c env ha (by simpa using hs)]
      rfl
  · have ha' : c.authenticated = false := by simpa using ha
    by_cases hl : (c.login env).1 = true
    · rw [ensure_eq_login_ok c env ha' hl]
      rfl
    · have hl' : (c.login env).1 = false := by simpa using hl
      rw [ensure_eq_login_fail c env ha' hl']
      by_cases hs : env.signing_available = true
      · have hr : respHasResultB (env.resp "/private/get_subaccount") = false := by
          by_contra hnr
          rw [login_eq_ok c env hs (by simpa using hnr)] at hl'
          simp at hl'
        rw [login_eq_fail_resp c env hs hr]
        rfl
      · rw [login_eq_fail_sdk c env (by simpa using hs)]
        rfl

theorem place_order_of_ensure_error (c : DeriveClient) (env : Env) (params : OrderParams)
    (e : PyExn) (c1 : DeriveClient) (tr1 : List Event)
    (he : c.ensure_authenticated env = (Except.error e, c1, tr1)) :
    c.place_order env params = (Except.error e, c1, tr1) := by
  unfold DeriveClient.place_order
  rw [he]

theorem place_order_ok_shape (c : DeriveClient) (env : Env) (params : OrderParams)
    (c1 : DeriveClient) (tr1 : List Event)
    (he : c.ensure_authenticated env = (Except.ok (), c1, tr1))
    (hs : env.signing_available = true) :
    (∃ v, (c.place_order env params).1 = Except.ok (POResult.order v) ∧
      getResult (env.resp "/private/order") = some v) ∨
    (∃ m, (c.place_order env params).1 = Except.ok (POResult.error m)) := by
  unfold DeriveClient.place_order DeriveClient.get_ticker DeriveClient.post
  rw [he]
  dsimp
  simp only [hs, if_true]
  generalize htk : getResult (env.resp "/public/get_ticker") = tk
  by_cases ht : pyTruthyOpt tk = true
  · simp only [ht, if_true]
    cases tk with
    | none => exact absurd ht (by simp [pyTruthyOpt])
    | some tv =>
      cases tv with
      | obj tickerD =>
        dsimp only
        generalize hb : buildTradeModuleData c1 tickerD params = bres
        cases bres with
        | error msg => exact Or.inr ⟨msg, rfl⟩
        | ok md =>
          rcases hcl : classifyOrderResponse (env.resp "/private/order") with v | m
          · exact Or.inl ⟨v, rfl, classify_order_inv _ _ hcl⟩
          · exact Or.inr ⟨m, rfl⟩
      | null => exact Or.inr ⟨"ticker object has no attribute get", rfl⟩
      | bool b => exact Or.inr ⟨"ticker object has no attribute get", rfl⟩
      | num q => exact Or.inr ⟨"ticker object has no attribute get", rfl⟩
      | str s => exact Or.inr ⟨"ticker object has no attribute get", rfl⟩
      | arr xs => exact Or.inr ⟨"ticker object has no attribute get", rfl⟩
  · have ht' : pyTruthyOpt tk = false := by simpa using ht
    simp only [ht', if_false]
    exact Or.inr ⟨"Could not get ticker for " ++ params.instrument_name, rfl⟩

theorem place_order_eq_no_ticker (c : DeriveClient) (env : Env) (params : OrderParams)
    (c1 : DeriveClient) (tr1 : List Event)
    (he : c.ensure_authenticated env = (Except.ok (), c1, tr1))
    (hs : env.signing_available = true)
    (ht : getResult (env.resp "/public/get_ticker") = none) :
    c.place_order env params =
      (Except.ok (POResult.error ("Could not get ticker for " ++ params.instrument_name)),
        c1, tr1 ++ [Event.post c1.rest_url "/public/get_ticker"]) := by
  unfold DeriveClient.place_order DeriveClient.get_ticker DeriveClient.post
  rw [he]
  dsimp only
  rw [ht]
  simp [hs, pyTruthyOpt]

theorem ensure_ok_signing (c : DeriveClient) (env : Env)
    (hok : (c.ensure_authenticated env).1 = Except.ok ()) :
    env.signing_available = true := by
  by_contra hns
  have hns' : env.signing_available = false := by simpa using hns
  by_cases ha : c.authenticated = true
  · rw [ensure_eq_auth_noSDK c env ha hns'] at hok
    exact Except.noConfusion hok
  · have ha' : c.authenticated = false := by simpa using ha
    have hl' : (c.login env).1 = false := by rw [login_eq_fail_sdk c env hns']
    rw [ensure_eq_login_fail c env ha' hl'] at hok
    exact Except.noConfusion hok

/-- C1: a client constructed for a given network only ever POSTs to that
network's REST base URL and only signs actions carrying that network's
domain separator and trade-module address — over every sequence of client
operations in arbitrary environments — and the testnet and mainnet REST
URL, domain separator and trade-module address are pairwise distinct, so a
testnet client never uses a mainnet constant and vice versa. -/
theorem C1_network_isolation (ops : List (ClientOp × Env)) (sk wa sa : String)
    (sub : ℤ) (n : Network) :
    traceOnNetwork n (runOps ops (DeriveClient.init sk wa sub sa n)).2 = true ∧
    (ENDPOINTS Network.testnet).rest ≠ (ENDPOINTS Network.mainnet).rest ∧
    (PROTOCOL_CONSTANTS Network.testnet).DOMAIN_SEPARATOR ≠
      (PROTOCOL_CONSTANTS Network.mainnet).DOMAIN_SEPARATOR ∧
    (PROTOCOL_CONSTANTS Network.testnet).TRADE_MODULE_ADDRESS ≠
      (PROTOCOL_CONSTANTS Network.mainnet).TRADE_MODULE_ADDRESS :=
  ⟨(runOps_stepOK ops (DeriveClient.init sk wa sub sa n)).2.2.2 rfl,
    by decide, by decide, by decide⟩

/-- C7: once the `authenticated` flag is true it stays true under every
subsequent sequence of client operations — no operation ever demotes the
auth state back to unauthenticated. -/
theorem C7_authenticated_flag_monotone (ops : List (ClientOp × Env)) (c : DeriveClient)
    (h : c.authenticated = true) : (runOps ops c).1.authenticated = true :=
  (runOps_stepOK ops c).2.2.1 h

/-- Witness for C7: after a cancel and an order attempt against a dead
exchange (both privileged calls fail), the flag is still true. -/
theorem C7_authenticated_flag_monotone_witness :
    (runOps
      [(ClientOp.cancelOrder "42", envDown),
       (ClientOp.placeOrder
         { instrument_name := "ETH-PERP", side := "buy", amount := 1, limit_price := 10 },
        envDown)] cAuth).1.authenticated = true :=
  C7_authenticated_flag_monotone _ cAuth rfl

/-- C6: `_ensure_authenticated` regenerates the session auth headers with
the current timestamp on every call — also when the flag is already true —
and when the flag is false it first logs in, raising `RuntimeError` when
that login fails. -/
theorem C6_ensure_authenticated_refreshes (c : DeriveClient) (env : Env) :
    (c.authenticated = true → env.signing_available = true →
      c.ensure_authenticated env =
        (Except.ok (), { c with header_timestamp := some env.now },
          [Event.refreshHeaders env.now])) ∧
    (c.authenticated = false → (c.login env).1 = true →
      c.ensure_authenticated env =
        (Except.ok (), { c with header_timestamp := some env.now, authenticated := true },
          [Event.refreshHeaders env.now, Event.post c.rest_url "/private/get_subaccount",
           Event.refreshHeaders env.now])) ∧
    (c.authenticated = false → (c.login env).1 = false →
      (c.ensure_authenticated env).1 =
        Except.error (PyExn.runtimeError "Authentication required but login failed")) :=
  ⟨fun ha hs => ensure_eq_auth_ok c env ha hs,
   fun ha hl => ensure_eq_login_ok c env ha hl,
   fun ha hl => by rw [ensure_eq_login_fail c env ha hl]⟩

/-- Witness for C6: an already-authenticated client still gets fresh
headers stamped with the current time. -/
theorem C6_ensure_authenticated_refreshes_witness :
    cAuth.ensure_authenticated envOk =
      (Except.ok (), { cAuth with header_timestamp := some envOk.now },
        [Event.refreshHeaders envOk.now]) :=
  (C6_ensure_authenticated_refreshes cAuth envOk).1 rfl rfl

/-- C2: with all other fields identical, the trade-module data built for
`side="sell"` is the one built for `side="buy"` with the amount negated and
the bid flag cleared; and for a valid side the `is_bid` flag is false
exactly when the side is `"sell"`.  (`buildTradeModuleData` is precisely
the `TradeModuleData(...)` construction `place_order` signs and submits.) -/
theorem C2_sell_negates_buy (c : DeriveClient) (tickerD : Dict) (params : OrderParams) :
    buildTradeModuleData c tickerD { params with side := "sell" } =
      (buildTradeModuleData c tickerD { params with side := "buy" }).map
        (fun md => { md with amount := -md.amount, is_bid := false }) ∧
    (∀ md, buildTradeModuleData c tickerD params = Except.ok md →
      params.side = "buy" ∨ params.side = "sell" →
      (md.is_bid = false ↔ params.side = "sell")) := by
  constructor
  · unfold buildTradeModuleData
    generalize hsub : (match lookupD tickerD "base_asset_sub_id" with
      | none => some 0
      | some v => pyInt v) = sub
    cases sub with
    | none => rfl
    | some subId => rfl
  · intro md h hv
    unfold buildTradeModuleData at h
    generalize hsub : (match lookupD tickerD "base_asset_sub_id" with
      | none => some 0
      | some v => pyInt v) = sub at h
    cases sub with
    | none => exact Except.noConfusion h
    | some subId =>
      dsimp only at h
      injection h with h'
      rcases hv with hb | hsell
      · rw [hb] at h' ⊢
        rw [← h']
        simp
      · rw [hsell] at h' ⊢
        rw [← h']
        simp

/-- Witness for C2: for a concrete sell order the built module data carries
`is_bid = false`. -/
theorem C2_sell_negates_buy_witness :
    ({ asset_address := some (JVal.str "0xA11ce0000000000000000000000000000000Asse")
       sub_id := 12
       limit_price := 3000
       amount := -(1/10)
       max_fee := 1000
       recipient_id := 5
       is_bid := false } : TradeModuleData).is_bid = false ↔ ("sell" : String) = "sell" :=
  (C2_sell_negates_buy cTest
    [("base_asset_address", JVal.str "0xA11ce0000000000000000000000000000000Asse"),
     ("base_asset_sub_id", JVal.num 12)]
    { instrument_name := "ETH-PERP", side := "sell", amount := 1/10, limit_price := 3000 }).2
    _ rfl (Or.inr rfl)

/-- C10: every trade-module data built by `place_order` carries the fixed
constants `max_fee = 1000` and `recipient_id` equal to the client's bound
subaccount id, and the signed action around it always uses
`signature_expiry_sec = MAX_INT_32`, whatever the caller-supplied order
parameters are. -/
theorem C10_fixed_action_constants (c : DeriveClient) (env : Env) (tickerD : Dict)
    (params : OrderParams) (md : TradeModuleData)
    (h : buildTradeModuleData c tickerD params = Except.ok md) :
    md.max_fee = 1000 ∧ md.recipient_id = c.subaccount_id ∧
    (buildSignedAction c env md).signature_expiry_sec = MAX_INT_32 := by
  unfold buildTradeModuleData at h
  generalize hsub : (match lookupD tickerD "base_asset_sub_id" with
    | none => some 0
    | some v => pyInt v) = sub at h
  cases sub with
  | none => exact Except.noConfusion h
  | some subId =>
    dsimp only at h
    injection h with h'
    exact ⟨by rw [← h'], by rw [← h'], rfl⟩

/-- Witness for C10 at a concrete order. -/
theorem C10_fixed_action_constants_witness :
    ({ asset_address := none, sub_id := 0, limit_price := 3000, amount := 1,
       max_fee := 1000, recipient_id := 5, is_bid := true } : TradeModuleData).max_fee = 1000 ∧
    ({ asset_address := none, sub_id := 0, limit_price := 3000, amount := 1,
       max_fee := 1000, recipient_id := 5, is_bid := true } : TradeModuleData).recipient_id =
      cTest.subaccount_id ∧
    (buildSignedAction cTest envOk
      { asset_address := none, sub_id := 0, limit_price := 3000, amount := 1,
        max_fee := 1000, recipient_id := 5,
        is_bid := true }).signature_expiry_sec = MAX_INT_32 :=
  C10_fixed_action_constants cTest envOk []
    { instrument_name := "ETH-PERP", side := "buy", amount := 1, limit_price := 3000 } _ rfl

/-- C3: `place_order` raises exactly when the authentication/configuration
phase fails (the flag set but the signing SDK unavailable, or the flag
unset and the login probe failing — the latter covering a missing signing
capability); whenever it returns, the value is either the exchange's
`result` payload (success) or a structured error value, so exchange-level
rejections and failures never surface as exceptions; and a success value is
returned exactly from a response carrying a `result` field. -/
theorem C3_place_order_error_discipline (c : DeriveClient) (env : Env) (params : OrderParams) :
    ((∃ e, (c.place_order env params).1 = Except.error e) ↔
      ((c.authenticated = true ∧ env.signing_available = false) ∨
        (c.authenticated = false ∧ (c.login env).1 = false))) ∧
    (∀ v, (c.place_order env params).1 = Except.ok (POResult.order v) →
      getResult (env.resp "/private/order") = some v) ∧
    ((∃ e, (c.place_order env params).1 = Except.error e) ∨
      (∃ v, (c.place_order env params).1 = Except.ok (POResult.order v)) ∨
      (∃ m, (c.place_order env params).1 = Except.ok (POResult.error m))) := by
  by_cases ha : c.authenticated = true
  · by_cases hs : env.signing_available = true
    · have he := ensure_eq_auth_ok c env ha hs
      have shape := place_order_ok_shape c env params _ _ he hs
      have hnoerr : ∀ e, ¬((c.place_order env params).1 = Except.error e) := by
        rcases shape with ⟨v, hv, _⟩ | ⟨m, hm⟩
        · intro e h'
          rw [hv] at h'
          exact Except.noConfusion h'
        · intro e h'
          rw [hm] at h'
          exact Except.noConfusion h'
      refine ⟨?_, ?_, ?_⟩
      · constructor
        · rintro ⟨e, h'⟩
          exact absurd h' (hnoerr e)
        · rintro (⟨_, hsf⟩ | ⟨haf, _⟩)
          · rw [hs] at hsf
            exact Bool.noConfusion hsf
          · rw [ha] at haf
            exact Bool.noConfusion haf
      · intro v' h'
        rcases shape with ⟨v, hv, hres⟩ | ⟨m, hm⟩
        · rw [hv] at h'
          injection h' with h''
          injection h'' with h3
          rw [← h3]
          exact hres
        · rw [hm] at h'
          injection h' with h''
          exact POResult.noConfusion h''
      · rcases shape with ⟨v, hv, _⟩ | ⟨m, hm⟩
        · exact Or.inr (Or.inl ⟨v, hv⟩)
        · exact Or.inr (Or.inr ⟨m, hm⟩)
    · have hs' : env.signing_available = false := by simpa using hs
      have hpo := place_order_of_ensure_error c env params _ _ _
        (ensure_eq_auth_noSDK c env ha hs')
      have h1 : (c.place_order env params).1 = Except.error PyExn.importError := by
        rw [hpo]
      refine ⟨⟨fun _ => Or.inl ⟨ha, hs'⟩, fun _ => ⟨_, h1⟩⟩, ?_, Or.inl ⟨_, h1⟩⟩
      intro v h'
      rw [h1] at h'
      exact Except.noConfusion h'
  · have ha' : c.authenticated = false := by simpa using ha
    by_cases hl : (c.login env).1 = true
    · have hs := login_ok_signing c env hl
      have he := ensure_eq_login_ok c env ha' hl
      have shape := place_order_ok_shape c env params _ _ he hs
      have hnoerr : ∀ e, ¬((c.place_order env params).1 = Except.error e) := by
        rcases shape with ⟨v, hv, _⟩ | ⟨m, hm⟩
        · intro e h'
          rw [hv] at h'
          exact Except.noConfusion h'
        · intro e h'
          rw [hm] at h'
          exact Except.noConfusion h'
      refine ⟨?_, ?_, ?_⟩
      · constructor
        · rintro ⟨e, h'⟩
          exact absurd h' (hnoerr e)
        · rintro (⟨hat, _⟩ | ⟨_, hlf⟩)
          · rw [ha'] at hat
            exact Bool.noConfusion hat
          · rw [hl] at hlf
            exact Bool.noConfusion hlf
      · intro v' h'
        rcases shape with ⟨v, hv, hres⟩ | ⟨m, hm⟩
        · rw [hv] at h'
          injection h' with h''
          injection h'' with h3
          rw [← h3]
          exact hres
        · rw [hm] at h'
          injection h' with h''
          exact POResult.noConfusion h''
      · rcases shape with ⟨v, hv, _⟩ | ⟨m, hm⟩
        · exact Or.inr (Or.inl ⟨v, hv⟩)
        · exact Or.inr (Or.inr ⟨m, hm⟩)
    · have hl' : (c.login env).1 = false := by simpa using hl
      have hpo := place_order_of_ensure_error c env params _ _ _
        (ensure_eq_login_fail c env ha' hl')
      have h1 : (c.place_order env params).1 =
          Except.error (PyExn.runtimeError "Authentication required but login failed") := by
        rw [hpo]
      refine ⟨⟨fun _ => Or.inr ⟨ha', hl'⟩, fun _ => ⟨_, h1⟩⟩, ?_, Or.inl ⟨_, h1⟩⟩
      intro v h'
      rw [h1] at h'
      exact Except.noConfusion h'

/-- Witness for C3: a concrete successful placement returns exactly the
exchange's `result` payload. -/
theorem C3_place_order_error_discipline_witness :
    getResult (envOk.resp "/private/order") = some (JVal.str "ok") :=
  (C3_place_order_error_discipline cAuth envOk
    { instrument_name := "ETH-PERP", side := "buy", amount := 1, limit_price := 3000 }).2.1
    (JVal.str "ok") rfl

/-- C5: when the ticker lookup for the instrument comes back absent,
`place_order` returns the error value `Could not get ticker for X` and its
trace contains no signing event and no POST to the order endpoint. -/
theorem C5_missing_ticker_no_submission (c : DeriveClient) (env : Env) (params : OrderParams)
    (hok : (c.ensure_authenticated env).1 = Except.ok ())
    (ht : getResult (env.resp "/public/get_ticker") = none) :
    (c.place_order env params).1 =
      Except.ok (POResult.error ("Could not get ticker for " ++ params.instrument_name)) ∧
    (c.place_order env params).2.2.all
      (fun e => !e.isSign && !(Event.isPostTo "/private/order" e)) = true := by
  have hs := ensure_ok_signing c env hok
  have htr := ensure_trace_clean c env
  rcases hE : c.ensure_authenticated env with ⟨r, c1, tr1⟩
  rw [hE] at hok htr
  dsimp at hok htr
  subst hok
  have hpo := place_order_eq_no_ticker c env params c1 tr1 hE hs ht
  rw [hpo]
  refine ⟨rfl, ?_⟩
  dsimp only
  rw [List.all_append, htr, Bool.true_and]
  rfl

/-- Witness for C5 at a concrete instrument and environment. -/
theorem C5_missing_ticker_no_submission_witness :
    (cAuth.place_order envNoTicker
      { instrument_name := "ETH-PERP", side := "buy", amount := 1, limit_price := 3000 }).1 =
      Except.ok (POResult.error "Could not get ticker for ETH-PERP") ∧
    (cAuth.place_order envNoTicker
      { instrument_name := "ETH-PERP", side := "buy", amount := 1, limit_price := 3000 }).2.2.all
      (fun e => !e.isSign && !(Event.isPostTo "/private/order" e)) = true :=
  C5_missing_ticker_no_submission cAuth envNoTicker
    { instrument_name := "ETH-PERP", side := "buy", amount := 1, limit_price := 3000 } rfl rfl

/-- Counterexample to C4 as stated: an order with non-positive amount
(amount = 0, a valid side) is NOT rejected before a network call — the
`place_order` tool forwards it to the client, which posts all the way to
the exchange's order endpoint. -/
theorem C4_counterexample_nonpositive_amount :
    ((server_place_order cAuth envOk "ETH-PERP" "buy" 0 3000 "limit" "gtc" false
      false).2.2).any (Event.isPostTo "/private/order") = true := rfl

/-- C4 (amended): only the unknown-side half holds — an `OrderParams` with a
side other than `"buy"`/`"sell"` is rejected by the server tool with a
validation message before any network call (empty trace, client untouched);
a non-positive amount is not validated client-side and proceeds to the
exchange. -/
theorem C4_unknown_side_rejected (c : DeriveClient) (env : Env)
    (iname side : String) (amount lp : ℚ) (ot tif : String) (ro po : Bool)
    (h1 : side ≠ "buy") (h2 : side ≠ "sell") :
    server_place_order c env iname side amount lp ot tif ro po =
      (Except.ok (ServerReply.invalid
        ("Invalid side '" ++ side ++ "'. Must be 'buy' or 'sell'.")), c, []) := by
  unfold server_place_order
  rw [if_neg]
  rintro (h | h)
  · exact h1 h
  · exact h2 h

/-- Witness for the amended C4 at a concrete unknown side. -/
theorem C4_unknown_side_rejected_witness :
    server_place_order cAuth envOk "ETH-PERP" "hold" 1 3000 "limit" "gtc" false false =
      (Except.ok (ServerReply.invalid "Invalid side 'hold'. Must be 'buy' or 'sell'."),
        cAuth, []) :=
  C4_unknown_side_rejected cAuth envOk "ETH-PERP" "hold" 1 3000 "limit" "gtc" false false
    (by decide) (by decide)

/-- Counterexample to C8 as stated: `cancel_order` is not exception-free —
on an unauthenticated client whose login probe fails it raises
`RuntimeError` instead of returning `false`. -/
theorem C8_counterexample_raises :
    (cTest.cancel_order envDown "42").1 =
      Except.error (PyExn.runtimeError "Authentication required but login failed") := rfl

/-- C8 (amended): provided the authentication phase succeeds,
`cancel_order` returns without raising, and returns `true` exactly when the
exchange response carries a `result` field, `false` on any other failure;
when the client is unauthenticated and login fails it raises instead. -/
theorem C8_cancel_order_result_flag (c : DeriveClient) (env : Env) (oid : String)
    (hok : (c.ensure_authenticated env).1 = Except.ok ()) :
    (c.cancel_order env oid).1 = Except.ok (respHasResultB (env.resp "/private/cancel")) := by
  rcases hE : c.ensure_authenticated env with ⟨r, c1, tr1⟩
  rw [hE] at hok
  dsimp at hok
  subst hok
  unfold DeriveClient.cancel_order DeriveClient.post
  rw [hE]

/-- Witness for the amended C8: a concrete cancel against a healthy
exchange returns `true`. -/
theorem C8_cancel_order_result_flag_witness :
    (cAuth.cancel_order envOk "7").1 =
      Except.ok (respHasResultB (envOk.resp "/private/cancel")) :=
  C8_cancel_order_result_flag cAuth envOk "7" rfl

/-- C9: `cancel_all_orders` returns 0 when the transport response has no
`result` field, 1 when the result is the literal acknowledgement `"ok"`,
and the embedded count when the result is a dictionary containing a
`cancelled` count. -/
theorem C9_cancel_all_classification (c : DeriveClient) (env : Env) (i : Option String)
    (hok : (c.ensure_authenticated env).1 = Except.ok ()) :
    (getResult (env.resp "/private/cancel_all") = none →
      (c.cancel_all_orders env i).1 = Except.ok (JVal.num 0)) ∧
    (getResult (env.resp "/private/cancel_all") = some (JVal.str "ok") →
      (c.cancel_all_orders env i).1 = Except.ok (JVal.num 1)) ∧
    (∀ fs k, getResult (env.resp "/private/cancel_all") = some (JVal.obj fs) →
      lookupD fs "cancelled" = some (JVal.num k) →
      (c.cancel_all_orders env i).1 = Except.ok (JVal.num k)) := by
  rcases hE : c.ensure_authenticated env with ⟨r, c1, tr1⟩
  rw [hE] at hok
  dsimp at hok
  subst hok
  unfold DeriveClient.cancel_all_orders DeriveClient.post
  rw [hE]
  dsimp only
  refine ⟨fun h => ?_, fun h => ?_, fun fs k h hk => ?_⟩
  · rw [h]
  · rw [h]
    rfl
  · rw [h]
    dsimp only
    rw [hk]
    rfl

/-- Witness for C9: the literal `"ok"` acknowledgement yields 1. -/
theorem C9_cancel_all_classification_witness :
    (cAuth.cancel_all_orders envOk none).1 = Except.ok (JVal.num 1) :=
  (C9_cancel_all_classification cAuth envOk none rfl).2.1 rfl
